import Mathlib

/-!
Verification of the `rlcheck` website monitor (`src/main.rs`) against its
natural-language specification.

The embedding translates the Rust source into Lean:

* `Site`, `SiteState` mirror the structs of the same names.
* `check_site` mirrors the checker, with the HTTP layer (`reqwest::get` and
  `Response::text`) abstracted as an input value (`ReqwestOutcome`): the
  checker's classification, fingerprinting and error formatting are embedded
  faithfully; the network itself is the external black box.
* `md5bytes` / `md5hex` are a byte-level implementation of the MD5 digest and
  of the `md5` crate's `LowerHex` formatting (`format!("{:x}", digest)`),
  which renders each of the 16 digest bytes as two lowercase hex characters.
* `monitorStep` is one iteration of the `monitor_site` loop body, returning
  the updated `SiteState` and the list of lines passed to `Logger::log`, in
  order.  The timer (`interval_timer.tick()`) is external; a run of the loop
  is a fold of `monitorStep` over a list of check results.
* `Logger` mirrors the rotating logger, with the file system modelled as a
  map from path strings to file contents (lists of lines); `fs::rename`,
  `fs::remove_file` and append-mode `open` get their usual semantics, and
  the disk operations that `Logger::log` / `rotate_logs` assume to succeed
  (the claims under verification assume the same) succeed in the model.
-/

namespace RLCheck

/-- Mirror of `struct Site { url, interval }` (`main.rs`). -/
structure Site where
  url : String
  interval : Nat
deriving Repr, DecidableEq

/-- Mirror of `struct SiteState { last_hash, last_size, is_up }` (`main.rs`). -/
structure SiteState where
  last_hash : Option String
  last_size : Option Nat
  is_up : Bool
deriving Repr, DecidableEq

/-- The initial per-site state built in `main`:
`SiteState { last_hash: None, last_size: None, is_up: true }`. -/
def initState : SiteState := { last_hash := none, last_size := none, is_up := true }

/-- Success payload of `check_site`: `(is_up, hash, content_size, load_time)`. -/
abbrev CheckOk := Bool × String × Nat × Nat

/-- Result type of `check_site`: `Result<(bool, String, usize, u128), String>`. -/
abbrev CheckResult := Except String CheckOk

/-! ### MD5 (the `md5` crate's `compute` and `LowerHex` formatting) -/

/-- Truncation to a 32-bit word. -/
def u32 (x : Nat) : Nat := x % 4294967296

/-- 32-bit left rotation. -/
def rotl32 (x n : Nat) : Nat := u32 ((x <<< n) ||| (x >>> (32 - n)))

/-- The 64 MD5 sine-derived constants (RFC 1321). -/
def md5K : List Nat :=
  [0xd76aa478, 0xe8c7b756, 0x242070db, 0xc1bdceee,
   0xf57c0faf, 0x4787c62a, 0xa8304613, 0xfd469501,
   0x698098d8, 0x8b44f7af, 0xffff5bb1, 0x895cd7be,
   0x6b901122, 0xfd987193, 0xa679438e, 0x49b40821,
   0xf61e2562, 0xc040b340, 0x265e5a51, 0xe9b6c7aa,
   0xd62f105d, 0x02441453, 0xd8a1e681, 0xe7d3fbc8,
   0x21e1cde6, 0xc33707d6, 0xf4d50d87, 0x455a14ed,
   0xa9e3e905, 0xfcefa3f8, 0x676f02d9, 0x8d2a4c8a,
   0xfffa3942, 0x8771f681, 0x6d9d6122, 0xfde5380c,
   0xa4beea44, 0x4bdecfa9, 0xf6bb4b60, 0xbebfbc70,
   0x289b7ec6, 0xeaa127fa, 0xd4ef3085, 0x04881d05,
   0xd9d4d039, 0xe6db99e5, 0x1fa27cf8, 0xc4ac5665,
   0xf4292244, 0x432aff97, 0xab9423a7, 0xfc93a039,
   0x655b59c3, 0x8f0ccc92, 0xffeff47d, 0x85845dd1,
   0x6fa87e4f, 0xfe2ce6e0, 0xa3014314, 0x4e0811a1,
   0xf7537e82, 0xbd3af235, 0x2ad7d2bb, 0xeb86d391]

/-- The 64 MD5 per-round left-rotation amounts (RFC 1321). -/
def md5S : List Nat :=
  [7, 12, 17, 22, 7, 12, 17, 22, 7, 12, 17, 22, 7, 12, 17, 22,
   5, 9, 14, 20, 5, 9, 14, 20, 5, 9, 14, 20, 5, 9, 14, 20,
   4, 11, 16, 23, 4, 11, 16, 23, 4, 11, 16, 23, 4, 11, 16, 23,
   6, 10, 15, 21, 6, 10, 15, 21, 6, 10, 15, 21, 6, 10, 15, 21]

/-- Little-endian byte serialization of `x` on `n` bytes. -/
def leBytes (n x : Nat) : List Nat :=
  (List.range n).map fun i => (x >>> (8 * i)) % 256

/-- Little-endian 32-bit word read from a byte list. -/
def wordLE (bs : List Nat) : Nat :=
  bs.getD 0 0 + 256 * bs.getD 1 0 + 65536 * bs.getD 2 0 + 16777216 * bs.getD 3 0

/-- MD5 padding: append `0x80`, zero bytes up to 56 mod 64, then the 8-byte
little-endian bit length of the original message. -/
def md5pad (msg : List Nat) : List Nat :=
  msg ++ [0x80] ++ List.replicate ((64 + 56 - ((msg.length + 1) % 64)) % 64) 0
      ++ leBytes 8 (8 * msg.length)

/-- Split a byte list into 64-byte chunks. -/
def chunks64 (l : List Nat) : List (List Nat) :=
  if l = [] then [] else l.take 64 :: chunks64 (l.drop 64)
termination_by l.length
decreasing_by
  simp only [List.length_drop]
  rename_i h
  exact Nat.sub_lt (List.length_pos.mpr h) (by decide)

/-- One application of the MD5 compression function to a 16-word block. -/
def md5block (M : List Nat) (st : Nat × Nat × Nat × Nat) : Nat × Nat × Nat × Nat :=
  let r := (List.range 64).foldl (fun st i =>
    let a := st.1
    let b := st.2.1
    let c := st.2.2.1
    let d := st.2.2.2
    let f :=
      if i < 16 then (b &&& c) ||| ((0xffffffff ^^^ b) &&& d)
      else if i < 32 then (d &&& b) ||| ((0xffffffff ^^^ d) &&& c)
      else if i < 48 then b ^^^ c ^^^ d
      else c ^^^ (b ||| (0xffffffff ^^^ d))
    let g :=
      if i < 16 then i
      else if i < 32 then (5 * i + 1) % 16
      else if i < 48 then (3 * i + 5) % 16
      else (7 * i) % 16
    let tmp := u32 (f + a + md5K.getD i 0 + M.getD g 0)
    (d, u32 (b + rotl32 tmp (md5S.getD i 0)), b, c)) st
  (u32 (st.1 + r.1), u32 (st.2.1 + r.2.1), u32 (st.2.2.1 + r.2.2.1), u32 (st.2.2.2 + r.2.2.2))

/-- `md5::compute`: the 16-byte MD5 digest of a byte sequence. -/
def md5bytes (msg : List Nat) : List Nat :=
  let st := (chunks64 (md5pad msg)).foldl
    (fun st chunk => md5block ((List.range 16).map fun i => wordLE ((chunk.drop (4 * i)).take 4)) st)
    (0x67452301, 0xefcdab89, 0x98badcfe, 0x10325476)
  leBytes 4 st.1 ++ leBytes 4 st.2.1 ++ leBytes 4 st.2.2.1 ++ leBytes 4 st.2.2.2

/-- Lowercase hex digit character. -/
def hexDigit (n : Nat) : Char :=
  if n < 10 then Char.ofNat (48 + n) else Char.ofNat (87 + n)

/-- Render each byte as two lowercase hex characters. -/
def hexChars : List Nat → List Char
  | [] => []
  | b :: bs => hexDigit (b / 16) :: hexDigit (b % 16) :: hexChars bs

/-- `format!("{:x}", md5::compute(bytes))`: the `md5` crate's `LowerHex`
implementation prints each digest byte with `{:02x}`. -/
def md5hex (msg : List Nat) : String :=
  ⟨hexChars (md5bytes msg)⟩

/-! ### `check_site` -/

/-- `reqwest::StatusCode::is_success()`: the status is in 200..=299. -/
def statusIsSuccess (code : Nat) : Bool := 200 ≤ code && code < 300

/-- Outcome of the HTTP layer that `check_site` consumes: either a response
(status code plus the result of reading the body as bytes) or a transport
error.  This is the external collaborator boundary; everything past it is
embedded from the source. -/
inductive ReqwestOutcome where
  | response (status : Nat) (body : Except String (List Nat))
  | failed (err : String)
deriving Repr

/-- Mirror of `check_site` (`main.rs` lines 160-180), with the HTTP call
abstracted as `outcome` and the measured wall-clock latency as `elapsedMs`.
Returns `(is_up, hash, content_size, load_time)` or the formatted error. -/
def check_site (outcome : ReqwestOutcome) (elapsedMs : Nat) : CheckResult :=
  match outcome with
  | .response status bodyRes =>
    let is_up := statusIsSuccess status
    match bodyRes with
    | .ok body =>
      let load_time := elapsedMs
      let content_size := body.length
      let hash := md5hex body
      .ok (is_up, hash, content_size, load_time)
    | .error e => .error ("Failed to read response body: " ++ e)
  | .failed e => .error ("Request failed: " ++ e)

/-! ### One iteration of the `monitor_site` loop -/

/-- The Rust byte-range slice `&s[..n]`: defined when `n` does not exceed the
string's length, a panic (`none`) otherwise.  (The digests being sliced are
ASCII hex strings, where byte and character counts coincide.) -/
def rustSliceTo (s : String) (n : Nat) : Option String :=
  if n ≤ s.length then some ⟨s.toList.take n⟩ else none

/-- The success-path status line
`website: {} | load_time: {}ms | status: {} | size: {}bytes | content_hash: {}`. -/
def mainMsg (url : String) (load_time : Nat) (status : String) (content_size : Nat)
    (hash_short : String) : String :=
  "website: " ++ url ++ " | load_time: " ++ toString load_time ++ "ms | status: " ++ status
    ++ " | size: " ++ toString content_size ++ "bytes | content_hash: " ++ hash_short

/-- The error-path status line `website: {} | load_time: n/a | status: error`. -/
def errorMsg (url : String) : String :=
  "website: " ++ url ++ " | load_time: n/a | status: error"

/-- One iteration of the `monitor_site` loop body (`main.rs` lines 189-227):
given the state and the `check_site` result for this tick, produce the updated
state and the list of messages passed to `logger.log`, in order. -/
def monitorStep (site : Site) (st : SiteState) (res : CheckResult) :
    SiteState × List String :=
  match res with
  | .ok (is_up, hash, content_size, load_time) =>
    let status := if is_up then "up" else "down"
    let hash_short := (rustSliceTo hash (min 5 hash.length)).getD ""
    let main_msg := mainMsg site.url load_time status content_size hash_short
    let statusLines :=
      if st.is_up != is_up then
        [if is_up then "  status changed: down -> up" else "  status changed: up -> down"]
      else []
    let st1 := if st.is_up != is_up then { st with is_up := is_up } else st
    let contentLines :=
      match st.last_hash with
      | some last_hash => if last_hash != hash then ["  content changed"] else []
      | none => []
    let st2 := { st1 with last_hash := some hash, last_size := some content_size }
    (st2, main_msg :: (statusLines ++ contentLines))
  | .error e =>
    let st1 := if st.is_up then { st with is_up := false } else st
    (st1, [errorMsg site.url, "  error: " ++ e])

/-- State after running the monitor loop body over a list of check results. -/
def runState (site : Site) (st : SiteState) (l : List CheckResult) : SiteState :=
  l.foldl (fun s r => (monitorStep site s r).1) st

/-- How one check result updates the remembered fingerprint: a successful
check stores its hash, a failed check leaves it alone. -/
def hashUpd (acc : Option String) (r : CheckResult) : Option String :=
  match r with | .ok (_, h, _, _) => some h | .error _ => acc

/-- How one check result updates the remembered `is_up`: a successful check
stores its own `is_up`, a failed check stores `false`. -/
def upUpd (_acc : Bool) (r : CheckResult) : Bool :=
  match r with | .ok (b, _, _, _) => b | .error _ => false

/-- The fingerprint of the most recent successful check in a run, if any. -/
def lastOkHash (l : List CheckResult) : Option String := l.foldl hashUpd none

/-- The `is_up` value stored after a run starting from the initial state. -/
def storedUp (l : List CheckResult) : Bool := l.foldl upUpd true

/-- The `is_up` of the most recent successful check in a run, if any. -/
def lastOkUp (l : List CheckResult) : Option Bool :=
  l.foldl (fun acc r => match r with | .ok (b, _, _, _) => some b | .error _ => acc) none

/-- The lines logged at the tick that processes `r`, after the site's loop has
already processed the run `pre` starting from the initial state. -/
def stepLines (site : Site) (pre : List CheckResult) (r : CheckResult) : List String :=
  (monitorStep site (runState site initState pre) r).2

/-! ### Rotating logger -/

/-- The file system visible to the logger: a map from path to file contents,
one entry per line written. -/
def FileSys := String → Option (List String)

/-- `fs::remove_file` (a missing file is an error, which the caller ignores). -/
def FileSys.removeFile (fs : FileSys) (p : String) : FileSys :=
  fun n => if n = p then none else fs n

/-- `fs::rename`: moves `src` over `dst` (replacing it) when `src` exists;
when `src` is missing the call fails, which the caller ignores. -/
def FileSys.renameFile (fs : FileSys) (src dst : String) : FileSys :=
  match fs src with
  | some v => fun n => if n = dst then some v else if n = src then none else fs n
  | none => fs

/-- `format!("{}.{}", base, i)`: the name of the `i`-th rotated file. -/
def bak (base : String) (i : Nat) : String := base ++ "." ++ toString i

/-- Mirror of `struct Logger` (`main.rs`): `hasFile` stands for
`file.is_some()` (and equally `base_path.is_some()`, set together in
`Logger::new`); the shared mutexes are collapsed since all access is
serialized. -/
structure Logger where
  hasFile : Bool
  base_path : String
  fs : FileSys
  current_lines : Nat
  max_lines : Nat
  max_files : Nat

/-- Mirror of `Logger::rotate_logs` (`main.rs` lines 105-139), under the
assumption (shared by the claims) that the disk operations the source lets
succeed do succeed: remove the oldest rotated file `.{max_files-1}`, shift
`.{i}` to `.{i+1}` for `i` from `max_files-2` down to `1`, rename the active
file to `.1`, open a fresh active file and reset the line counter. -/
def Logger.rotate_logs (lg : Logger) : Logger :=
  if lg.hasFile then
    let base := lg.base_path
    let fs1 := lg.fs.removeFile (bak base (lg.max_files - 1))
    let fs2 := ((List.range' 1 (lg.max_files - 2)).reverse).foldl
      (fun fs i => fs.renameFile (bak base i) (bak base (i + 1))) fs1
    let fs3 := fs2.renameFile base (base ++ ".1")
    let fs4 : FileSys := fun n => if n = base then some ((fs3 base).getD []) else fs3 n
    { lg with fs := fs4, current_lines := 0 }
  else lg

/-- Mirror of `Logger::log` (`main.rs` lines 82-103): always prints to the
console (not part of the state); with a file sink, rotates first when the
line counter has reached `max_lines`, then appends the line to the active
file and increments the counter. -/
def Logger.log (lg : Logger) (msg : String) : Logger :=
  if lg.hasFile then
    let lg1 := if lg.current_lines ≥ lg.max_lines then lg.rotate_logs else lg
    { lg1 with
      fs := fun n => if n = lg1.base_path
        then some (((lg1.fs lg1.base_path).getD []) ++ [msg]) else lg1.fs n,
      current_lines := lg1.current_lines + 1 }
  else lg

/-- `rotate_logs` iterated `m` times. -/
def Logger.rotateIter (lg : Logger) : Nat → Logger
  | 0 => lg
  | m + 1 => (lg.rotateIter m).rotate_logs

/-- `Logger::new` with a file sink that opens successfully: append-mode
create, the line counter seeded with the existing line count, and the
constants `max_lines = 20000`, `max_files = 4` from the source. -/
def Logger.new (path : String) (fs0 : FileSys) : Logger :=
  { hasFile := true
    base_path := path
    fs := fun n => if n = path then some ((fs0 path).getD []) else fs0 n
    current_lines := ((fs0 path).getD []).length
    max_lines := 20000
    max_files := 4 }

/-! ### Supervisor (`main`) -/

/-- Mirror of `struct Config { sites }`. -/
structure Config where
  sites : List Site

/-- What `main` does once the config has parsed. -/
inductive StartupOutcome where
  | exitOk (message : String)
  | monitor (tasks : List Site)
deriving Repr, DecidableEq

/-- The decision `main` takes after the config is parsed (`main.rs` lines
244-275): an empty site list prints `No sites configured!` and returns
`Ok(())`; otherwise one monitor task is spawned per configured site and the
process waits on them forever. -/
def mainStartup (cfg : Config) : StartupOutcome :=
  if cfg.sites.isEmpty then .exitOk "No sites configured!"
  else .monitor cfg.sites

/-- The monitor tasks spawned by `main`: none when it exits early. -/
def spawnedTasks (cfg : Config) : List Site :=
  match mainStartup cfg with
  | .exitOk _ => []
  | .monitor ts => ts

/-! ### Helper lemmas: the monitor loop -/

theorem monitorStep_last_hash (site : Site) (st : SiteState) (r : CheckResult) :
    (monitorStep site st r).1.last_hash = hashUpd st.last_hash r := by
  obtain ⟨lh, ls, u⟩ := st
  cases r with
  | ok p => obtain ⟨b, h, sz, t⟩ := p; cases u <;> cases b <;> rfl
  | error e => cases u <;> rfl

theorem monitorStep_last_size (site : Site) (st : SiteState) (r : CheckResult) :
    (monitorStep site st r).1.last_size
      = match r with | .ok (_, _, sz, _) => some sz | .error _ => st.last_size := by
  obtain ⟨lh, ls, u⟩ := st
  cases r with
  | ok p => obtain ⟨b, h, sz, t⟩ := p; cases u <;> cases b <;> rfl
  | error e => cases u <;> rfl

theorem monitorStep_is_up (site : Site) (st : SiteState) (r : CheckResult) :
    (monitorStep site st r).1.is_up = upUpd st.is_up r := by
  obtain ⟨lh, ls, u⟩ := st
  cases r with
  | ok p => obtain ⟨b, h, sz, t⟩ := p; cases u <;> cases b <;> rfl
  | error e => cases u <;> rfl

theorem runState_cons (site : Site) (st : SiteState) (r : CheckResult) (l : List CheckResult) :
    runState site st (r :: l) = runState site (monitorStep site st r).1 l := rfl

theorem runState_last_hash (site : Site) (l : List CheckResult) :
    ∀ st : SiteState, (runState site st l).last_hash = l.foldl hashUpd st.last_hash := by
  induction l with
  | nil => intro st; rfl
  | cons r l ih =>
    intro st
    rw [runState_cons, ih, List.foldl_cons, monitorStep_last_hash]

theorem runState_is_up (site : Site) (l : List CheckResult) :
    ∀ st : SiteState, (runState site st l).is_up = l.foldl upUpd st.is_up := by
  induction l with
  | nil => intro st; rfl
  | cons r l ih =>
    intro st
    rw [runState_cons, ih, List.foldl_cons, monitorStep_is_up]

theorem runState_initState_last_hash (site : Site) (l : List CheckResult) :
    (runState site initState l).last_hash = lastOkHash l := by
  rw [runState_last_hash]; rfl

theorem runState_initState_is_up (site : Site) (l : List CheckResult) :
    (runState site initState l).is_up = storedUp l := by
  rw [runState_is_up]; rfl

/-- The success-path status line starts with the character `w` of
`website: `, whatever its field values. -/
theorem mainMsg_data_head (url status hs : String) (t sz : Nat) :
    (mainMsg url t status sz hs).data.head? = some 'w' := by
  simp only [mainMsg, String.data_append, List.append_assoc]
  rfl

theorem errorMsg_data_head (url : String) :
    (errorMsg url).data.head? = some 'w' := by
  simp only [errorMsg, String.data_append, List.append_assoc]
  rfl

theorem mainMsg_ne (url status hs : String) (t sz : Nat) (s : String)
    (h : s.data.head? ≠ some 'w') : mainMsg url t status sz hs ≠ s := by
  intro he
  exact h (he ▸ mainMsg_data_head url status hs t sz)

theorem mainMsg_ne_content (url status hs : String) (t sz : Nat) :
    mainMsg url t status sz hs ≠ "  content changed" :=
  mainMsg_ne url status hs t sz _ (by decide)

theorem mainMsg_ne_down_up (url status hs : String) (t sz : Nat) :
    mainMsg url t status sz hs ≠ "  status changed: down -> up" :=
  mainMsg_ne url status hs t sz _ (by decide)

theorem mainMsg_ne_up_down (url status hs : String) (t sz : Nat) :
    mainMsg url t status sz hs ≠ "  status changed: up -> down" :=
  mainMsg_ne url status hs t sz _ (by decide)

/-- The lines of a successful-check iteration, written out. -/
theorem step_ok_lines (site : Site) (st : SiteState) (b : Bool) (h : String) (sz t : Nat) :
    (monitorStep site st (.ok (b, h, sz, t))).2
      = mainMsg site.url t (if b then "up" else "down") sz
          ((rustSliceTo h (min 5 h.length)).getD "")
        :: ((if st.is_up != b then
              [if b then "  status changed: down -> up" else "  status changed: up -> down"]
            else [])
          ++ (match st.last_hash with
              | some h₀ => if h₀ != h then ["  content changed"] else []
              | none => [])) := rfl

theorem step_count_content (site : Site) (st : SiteState) (b : Bool) (h : String) (sz t : Nat) :
    ((monitorStep site st (.ok (b, h, sz, t))).2).count "  content changed"
      = match st.last_hash with
        | none => 0
        | some h₀ => if h₀ = h then 0 else 1 := by
  rw [step_ok_lines]
  obtain ⟨lh, ls, u⟩ := st
  cases lh with
  | none =>
    cases u <;> cases b <;> simp [List.count_cons, List.count_append, mainMsg_ne_content]
  | some h₀ =>
    by_cases hh : h₀ = h <;>
      cases u <;> cases b <;>
        simp [List.count_cons, List.count_append, mainMsg_ne_content, hh]

theorem step_count_down_up (site : Site) (st : SiteState) (b : Bool) (h : String) (sz t : Nat) :
    ((monitorStep site st (.ok (b, h, sz, t))).2).count "  status changed: down -> up"
      = if st.is_up = false ∧ b = true then 1 else 0 := by
  rw [step_ok_lines]
  obtain ⟨lh, ls, u⟩ := st
  cases lh with
  | none =>
    cases u <;> cases b <;> simp [List.count_cons, List.count_append, mainMsg_ne_down_up]
  | some h₀ =>
    by_cases hh : h₀ = h <;>
      cases u <;> cases b <;>
        simp [List.count_cons, List.count_append, mainMsg_ne_down_up, hh]

theorem step_count_up_down (site : Site) (st : SiteState) (b : Bool) (h : String) (sz t : Nat) :
    ((monitorStep site st (.ok (b, h, sz, t))).2).count "  status changed: up -> down"
      = if st.is_up = true ∧ b = false then 1 else 0 := by
  rw [step_ok_lines]
  obtain ⟨lh, ls, u⟩ := st
  cases lh with
  | none =>
    cases u <;> cases b <;> simp [List.count_cons, List.count_append, mainMsg_ne_up_down]
  | some h₀ =>
    by_cases hh : h₀ = h <;>
      cases u <;> cases b <;>
        simp [List.count_cons, List.count_append, mainMsg_ne_up_down, hh]

theorem err_line_ne (e s : String) (h : s.data.get? 2 ≠ some 'e') :
    ("  error: " ++ e) ≠ s := by
  intro he
  apply h
  rw [← he, String.data_append]
  rfl

/-- C1: on the monitor loop, a successful check emits "  content changed"
exactly when some prior successful check exists and the fingerprint of the
most recent one differs from the current fingerprint: no event on the first
successful check, no event when the fingerprints agree, exactly one event
when they differ. -/
theorem monitor_content_changed_iff_baseline_differs (site : Site) (pre : List CheckResult)
    (b : Bool) (h : String) (sz t : Nat) :
    (stepLines site pre (.ok (b, h, sz, t))).count "  content changed"
      = match lastOkHash pre with
        | none => 0
        | some h₀ => if h₀ = h then 0 else 1 := by
  unfold stepLines
  rw [step_count_content site (runState site initState pre) b h sz t,
    runState_initState_last_hash]

/-- A concrete monitor run used to refute C2 as stated. -/
def siteA : Site := { url := "http://a.example", interval := 5 }

/-- The run: a successful up check, then a failed check. -/
def preFlap : List CheckResult :=
  [.ok (true, "aaaa", 4, 10), .error "connection refused"]

/-- C2 counterexample: after a successful up check followed by a failed
check, a successful up check emits "  status changed: down -> up" even
though its `is_up` equals the `is_up` of the immediately prior successful
check — refuting the claim that transition events fire exactly when `is_up`
differs from the prior successful check's `is_up` and that an intervening
failure does not change when they fire. -/
theorem status_changed_prior_ok_counterexample :
    lastOkUp preFlap = some true
    ∧ (stepLines siteA preFlap (.ok (true, "aaaa", 4, 10))).count
        "  status changed: down -> up" = 1 := by
  constructor
  · rfl
  · decide

/-- C2 amended: a "status changed" line is emitted on a successful check
exactly when its `is_up` differs from the stored `state.is_up`, and the
stored value reflects every prior check: a successful check stores its own
`is_up`, while a failed check stores `false`.  Hence no event fires on a
down-to-down repeat, but an up - failure - up sequence does emit
"  status changed: down -> up", so an intervening failed check does shift
when transition events fire relative to the prior successful check. -/
theorem status_changed_iff_stored_is_up_differs (site : Site) (pre : List CheckResult)
    (b : Bool) (h : String) (sz t : Nat) :
    (stepLines site pre (.ok (b, h, sz, t))).count "  status changed: down -> up"
      = (if storedUp pre = false ∧ b = true then 1 else 0)
    ∧ (stepLines site pre (.ok (b, h, sz, t))).count "  status changed: up -> down"
      = (if storedUp pre = true ∧ b = false then 1 else 0) := by
  unfold stepLines
  rw [step_count_down_up, step_count_up_down, runState_initState_is_up]
  exact ⟨rfl, rfl⟩

/-- C3: a failed check emits exactly the error status line (latency `n/a`)
followed by the error message line, sets `is_up` to `false` (it only moves
from `true` to `false`; `false` stays), leaves the other fields unchanged,
and emits no explicit "status changed" transition line. -/
theorem error_path_lines_and_state (site : Site) (st : SiteState) (e : String) :
    monitorStep site st (.error e)
      = ({ st with is_up := false }, [errorMsg site.url, "  error: " ++ e])
    ∧ ((monitorStep site st (.error e)).2).count "  status changed: down -> up" = 0
    ∧ ((monitorStep site st (.error e)).2).count "  status changed: up -> down" = 0 := by
  obtain ⟨lh, ls, u⟩ := st
  have hd : errorMsg site.url ≠ "  status changed: down -> up" := by
    intro he
    have h2 := he ▸ errorMsg_data_head site.url
    exact absurd h2 (by decide)
  have hu : errorMsg site.url ≠ "  status changed: up -> down" := by
    intro he
    have h2 := he ▸ errorMsg_data_head site.url
    exact absurd h2 (by decide)
  have hed : ("  error: " ++ e) ≠ "  status changed: down -> up" :=
    err_line_ne e _ (by decide)
  have heu : ("  error: " ++ e) ≠ "  status changed: up -> down" :=
    err_line_ne e _ (by decide)
  refine ⟨?_, ?_, ?_⟩
  · cases u <;> rfl
  · cases u <;> simp [monitorStep, List.count_cons, hd, hed]
  · cases u <;> simp [monitorStep, List.count_cons, hu, heu]

/-- C9: the error branch of one monitor-loop iteration leaves `last_hash`
and `last_size` unchanged and only touches `is_up` (setting it to `false`);
consequently over a whole run the stored fingerprint after a failure is
still the fingerprint of the most recent successful check. -/
theorem failed_check_preserves_fingerprint (site : Site) (st : SiteState) (m : String) :
    (monitorStep site st (.error m)).1.last_hash = st.last_hash
    ∧ (monitorStep site st (.error m)).1.last_size = st.last_size
    ∧ (monitorStep site st (.error m)).1.is_up = false
    ∧ ∀ pre : List CheckResult,
        (runState site initState (pre ++ [.error m])).last_hash = lastOkHash pre := by
  refine ⟨monitorStep_last_hash site st (.error m),
    monitorStep_last_size site st (.error m),
    monitorStep_is_up site st (.error m), ?_⟩
  intro pre
  rw [runState_initState_last_hash]
  unfold lastOkHash
  rw [List.foldl_append]
  rfl

/-- C4: when the very first check of a site completes the HTTP request with
a non-2xx status, the first status line is the "down" main line, and since
the initial state has `is_up = true`, exactly one
"  status changed: up -> down" event is emitted on that very first check. -/
theorem first_check_non_2xx_down_transition (site : Site) (code : Nat)
    (hcode : statusIsSuccess code = false) (body : List Nat) (t : Nat) :
    ((monitorStep site initState (check_site (.response code (.ok body)) t)).2).head?
      = some (mainMsg site.url t "down" body.length
          ((rustSliceTo (md5hex body) (min 5 (md5hex body).length)).getD ""))
    ∧ ((monitorStep site initState (check_site (.response code (.ok body)) t)).2).count
        "  status changed: up -> down" = 1 := by
  have hc : check_site (.response code (.ok body)) t
      = .ok (false, md5hex body, body.length, t) := by
    simp [check_site, hcode]
  rw [hc]
  constructor
  · rw [step_ok_lines]
    rfl
  · rw [step_count_up_down]
    simp [initState]

/-- C4 witness: site returning 500 with body `"A"` on the very first check. -/
theorem first_check_non_2xx_down_transition_witness :
    ((monitorStep siteA initState (check_site (.response 500 (.ok [65])) 10)).2).head?
      = some (mainMsg siteA.url 10 "down" ([65] : List Nat).length
          ((rustSliceTo (md5hex [65]) (min 5 (md5hex [65]).length)).getD ""))
    ∧ ((monitorStep siteA initState (check_site (.response 500 (.ok [65])) 10)).2).count
        "  status changed: up -> down" = 1 :=
  first_check_non_2xx_down_transition siteA 500 (by decide) [65] 10

/-- Whether a logged line has the shape of a main status line, i.e. starts
with `website: `. -/
def looksMain (l : String) : Bool := l.data.take 9 == "website: ".data

theorem looksMain_mainMsg (url status hs : String) (t sz : Nat) :
    looksMain (mainMsg url t status sz hs) = true := by
  simp only [looksMain, mainMsg, String.data_append, List.append_assoc]
  rfl

theorem looksMain_errorMsg (url : String) : looksMain (errorMsg url) = true := by
  simp only [looksMain, errorMsg, String.data_append, List.append_assoc]
  rfl

theorem looksMain_err_line (e : String) : looksMain ("  error: " ++ e) = false := by
  simp only [looksMain, String.data_append]
  rfl

theorem looksMain_down_up : looksMain "  status changed: down -> up" = false := by decide

theorem looksMain_up_down : looksMain "  status changed: up -> down" = false := by decide

theorem looksMain_content : looksMain "  content changed" = false := by decide

/-- C7 counterexample: on a failed check the one main line emitted is
exactly `website: <url> | load_time: n/a | status: error`: it has two `|`
separators, hence three fields, not the five of the claimed format — there
is no `size` and no `content_hash` field on the error path. -/
theorem error_line_not_five_fields_counterexample :
    ((monitorStep siteA initState (.error "boom")).2).headD ""
      = "website: http://a.example | load_time: n/a | status: error"
    ∧ (((monitorStep siteA initState (.error "boom")).2).headD "").data.count '|' = 2
    ∧ (mainMsg siteA.url 10 "up" 4 "aaaa").data.count '|' = 4 := by
  refine ⟨rfl, by decide, by decide⟩

/-- C7 amended: every check emits exactly one main log line, as the first
line of the iteration; on a successful check it is the five-field line
`website: .. | load_time: ..ms | status: .. | size: ..bytes | content_hash: ..`
(`mainMsg`), but on a failed check it is the three-field line
`website: .. | load_time: n/a | status: error` (`errorMsg`), without the
`size` and `content_hash` fields. -/
theorem one_main_line_per_check_with_shapes (site : Site) (st : SiteState) (res : CheckResult) :
    ((monitorStep site st res).2).countP looksMain = 1
    ∧ ((monitorStep site st res).2).head?
      = some (match res with
          | .ok (_, h, sz, t) =>
            mainMsg site.url t (if (monitorStep site st res).1.is_up then "up" else "down") sz
              ((rustSliceTo h (min 5 h.length)).getD "")
          | .error _ => errorMsg site.url) := by
  cases res with
  | ok p =>
    obtain ⟨b, h, sz, t⟩ := p
    refine ⟨?_, ?_⟩
    · rw [step_ok_lines]
      obtain ⟨lh, ls, u⟩ := st
      cases lh with
      | none =>
        cases u <;> cases b <;>
          simp [List.countP_cons, List.countP_append, looksMain_mainMsg,
            looksMain_down_up, looksMain_up_down, looksMain_content]
      | some h₀ =>
        by_cases hh : h₀ = h <;>
          cases u <;> cases b <;>
            simp [List.countP_cons, List.countP_append, looksMain_mainMsg, hh,
              looksMain_down_up, looksMain_up_down, looksMain_content]
    · rw [step_ok_lines, monitorStep_is_up]
      rfl
  | error e =>
    obtain ⟨lh, ls, u⟩ := st
    refine ⟨?_, ?_⟩
    · cases u <;>
        simp [monitorStep, List.countP_cons, looksMain_errorMsg, looksMain_err_line]
    · cases u <;> rfl

/-! ### Helper lemmas: digest length -/

theorem leBytes_length (n x : Nat) : (leBytes n x).length = n := by
  simp [leBytes]

theorem leBytes_lt (n x : Nat) : ∀ b ∈ leBytes n x, b < 256 := by
  intro b hb
  simp only [leBytes, List.mem_map] at hb
  obtain ⟨i, _, rfl⟩ := hb
  exact Nat.mod_lt _ (by decide)

theorem hexChars_length (bs : List Nat) : (hexChars bs).length = 2 * bs.length := by
  induction bs with
  | nil => rfl
  | cons b bs ih =>
    simp only [hexChars, List.length_cons, ih]
    omega

theorem hexDigit_mem_of_lt : ∀ n, n < 16 → hexDigit n ∈ "0123456789abcdef".data := by
  decide

theorem hexChars_mem (bs : List Nat) (hb : ∀ b ∈ bs, b < 256) :
    ∀ c ∈ hexChars bs, c ∈ "0123456789abcdef".data := by
  induction bs with
  | nil => intro c hc; cases hc
  | cons b bs ih =>
    intro c hc
    have hblt : b < 256 := hb b (List.mem_cons_self b bs)
    rcases hc with _ | ⟨_, hc2⟩
    · exact hexDigit_mem_of_lt _ (Nat.div_lt_of_lt_mul hblt)
    · rcases hc2 with _ | ⟨_, hc3⟩
      · exact hexDigit_mem_of_lt _ (Nat.mod_lt _ (by decide))
      · exact ih (fun x hx => hb x (List.mem_cons_of_mem b hx)) c hc3

theorem md5bytes_length (msg : List Nat) : (md5bytes msg).length = 16 := by
  simp [md5bytes, leBytes_length]

theorem md5bytes_lt (msg : List Nat) : ∀ b ∈ md5bytes msg, b < 256 := by
  intro b hb
  simp only [md5bytes, List.mem_append] at hb
  rcases hb with ((h1 | h2) | h3) | h4
  · exact leBytes_lt _ _ b h1
  · exact leBytes_lt _ _ b h2
  · exact leBytes_lt _ _ b h3
  · exact leBytes_lt _ _ b h4

theorem md5hex_length (msg : List Nat) : (md5hex msg).length = 32 := by
  show (hexChars (md5bytes msg)).length = 32
  rw [hexChars_length, md5bytes_length]

/-- C10: the fingerprint-prefix slice `&hash[..5.min(hash.len())]` is in
bounds for every hash string; the digest `check_site` produces is a
32-character string of lowercase hex digits, so the logged `content_hash`
prefix is exactly 5 characters on every successful check. -/
theorem hash_prefix_total_and_five_chars :
    (∀ h : String, (rustSliceTo h (min 5 h.length)).isSome = true)
    ∧ ∀ body : List Nat,
        (md5hex body).length = 32
        ∧ (∀ c ∈ (md5hex body).data, c ∈ "0123456789abcdef".data)
        ∧ ((rustSliceTo (md5hex body) (min 5 (md5hex body).length)).getD "").length = 5 := by
  constructor
  · intro h
    simp [rustSliceTo, min_le_right]
  · intro body
    refine ⟨md5hex_length body, hexChars_mem _ (md5bytes_lt body), ?_⟩
    have h32 := md5hex_length body
    have hmin : min 5 (md5hex body).length = 5 := by omega
    have hle : 5 ≤ (md5hex body).length := by omega
    rw [hmin]
    unfold rustSliceTo
    rw [if_pos hle]
    show ((md5hex body).toList.take 5).length = 5
    rw [List.length_take]
    have hl : (md5hex body).toList.length = 32 := h32
    omega

/-! ### Helper lemmas: file names -/

theorem bak_data (p : String) (i : Nat) :
    (bak p i).data = p.data ++ ('.' :: (toString i).data) := by
  simp only [bak, String.data_append, List.append_assoc]
  rfl

theorem bak_ne_self (p : String) (i : Nat) : bak p i ≠ p := by
  intro he
  have h2 := congrArg String.data he
  rw [bak_data] at h2
  have h3 : p.data ++ ('.' :: (toString i).data) = p.data ++ [] := by
    rw [List.append_nil]; exact h2
  have h4 := List.append_cancel_left h3
  simp at h4

theorem bak_ne_bak (p : String) (i j : Nat) (h : (toString i).data ≠ (toString j).data) :
    bak p i ≠ bak p j := by
  intro he
  have h2 := congrArg String.data he
  rw [bak_data, bak_data] at h2
  have h3 := List.append_cancel_left h2
  injection h3 with _ h4
  exact h h4

theorem bak_one (p : String) : bak p 1 = p ++ ".1" := by
  apply String.ext
  rw [bak_data, String.data_append]
  rfl

theorem self_ne_append_one (p : String) : p ≠ p ++ ".1" := by
  intro he
  have h2 := congrArg String.length he
  rw [String.length_append] at h2
  have h3 : (".1" : String).length = 2 := rfl
  omega

/-! ### Helper lemmas: file-system operations -/

theorem removeFile_apply (fs : FileSys) (p n : String) :
    fs.removeFile p n = if n = p then none else fs n := rfl

theorem renameFile_src (fs : FileSys) (src dst : String) (h : src ≠ dst) :
    fs.renameFile src dst src = none := by
  unfold FileSys.renameFile
  cases hfs : fs src with
  | some v => simp [h]
  | none => exact hfs

theorem renameFile_dst (fs : FileSys) (src dst : String) :
    fs.renameFile src dst dst = (fs src).elim (fs dst) some := by
  unfold FileSys.renameFile
  cases hfs : fs src with
  | some v => simp
  | none => simp

theorem renameFile_other (fs : FileSys) (src dst n : String)
    (h1 : n ≠ src) (h2 : n ≠ dst) : fs.renameFile src dst n = fs n := by
  unfold FileSys.renameFile
  cases hfs : fs src with
  | some v => simp [h1, h2]
  | none => rfl

theorem elim_none_some (o : Option (List String)) : o.elim none some = o := by
  cases o <;> rfl

/-! ### Helper lemmas: one rotation, file by file -/

/-- `rotate_logs` with the source's `max_files = 4`, written as the explicit
chain remove `.3`, rename `.2` to `.3`, rename `.1` to `.2`, rename the
active file to `.1`, fresh active file, counter reset — in that order. -/
theorem rotate_logs_eq (lg : Logger) (hf : lg.hasFile = true) (hm : lg.max_files = 4) :
    lg.rotate_logs = { lg with
      current_lines := 0
      fs := fun n =>
        if n = lg.base_path then
          some (((((lg.fs.removeFile (bak lg.base_path 3)).renameFile (bak lg.base_path 2)
            (bak lg.base_path 3)).renameFile (bak lg.base_path 1)
            (bak lg.base_path 2)).renameFile lg.base_path (lg.base_path ++ ".1")
              lg.base_path).getD [])
        else ((((lg.fs.removeFile (bak lg.base_path 3)).renameFile (bak lg.base_path 2)
            (bak lg.base_path 3)).renameFile (bak lg.base_path 1)
            (bak lg.base_path 2)).renameFile lg.base_path (lg.base_path ++ ".1")) n } := by
  unfold Logger.rotate_logs
  rw [hf, hm]
  rfl

theorem rotate_preserves (lg : Logger) :
    (lg.rotate_logs).hasFile = lg.hasFile
    ∧ (lg.rotate_logs).base_path = lg.base_path
    ∧ (lg.rotate_logs).max_lines = lg.max_lines
    ∧ (lg.rotate_logs).max_files = lg.max_files := by
  unfold Logger.rotate_logs
  split <;> exact ⟨rfl, rfl, rfl, rfl⟩

theorem rotate_lines (lg : Logger) (hf : lg.hasFile = true) (hm : lg.max_files = 4) :
    (lg.rotate_logs).current_lines = 0 := by
  rw [rotate_logs_eq lg hf hm]

theorem rotate_base (lg : Logger) (hf : lg.hasFile = true) (hm : lg.max_files = 4) :
    (lg.rotate_logs).fs lg.base_path = some [] := by
  rw [rotate_logs_eq lg hf hm]
  simp only [if_pos rfl]
  rw [renameFile_src _ _ _ (self_ne_append_one lg.base_path)]
  rfl

theorem rotate_bak1 (lg : Logger) (hf : lg.hasFile = true) (hm : lg.max_files = 4) :
    (lg.rotate_logs).fs (bak lg.base_path 1) = lg.fs lg.base_path := by
  rw [rotate_logs_eq lg hf hm]
  simp only [if_neg (bak_ne_self lg.base_path 1)]
  rw [← bak_one]
  rw [renameFile_dst]
  rw [renameFile_src _ (bak lg.base_path 1) (bak lg.base_path 2)
    (bak_ne_bak lg.base_path 1 2 (by decide))]
  rw [renameFile_other _ (bak lg.base_path 1) (bak lg.base_path 2) lg.base_path
    (fun he => bak_ne_self lg.base_path 1 he.symm)
    (fun he => bak_ne_self lg.base_path 2 he.symm)]
  rw [renameFile_other _ (bak lg.base_path 2) (bak lg.base_path 3) lg.base_path
    (fun he => bak_ne_self lg.base_path 2 he.symm)
    (fun he => bak_ne_self lg.base_path 3 he.symm)]
  rw [removeFile_apply, if_neg (fun he => bak_ne_self lg.base_path 3 he.symm)]
  exact elim_none_some _

theorem rotate_bak2 (lg : Logger) (hf : lg.hasFile = true) (hm : lg.max_files = 4) :
    (lg.rotate_logs).fs (bak lg.base_path 2) = lg.fs (bak lg.base_path 1) := by
  rw [rotate_logs_eq lg hf hm]
  simp only [if_neg (bak_ne_self lg.base_path 2)]
  rw [renameFile_other _ _ _ _ (fun he => bak_ne_self lg.base_path 2 he)
    (by rw [← bak_one]; exact bak_ne_bak lg.base_path 2 1 (by decide))]
  rw [renameFile_dst]
  rw [renameFile_other _ _ _ _ (bak_ne_bak lg.base_path 1 2 (by decide))
    (bak_ne_bak lg.base_path 1 3 (by decide))]
  rw [removeFile_apply, if_neg (bak_ne_bak lg.base_path 1 3 (by decide)),
    renameFile_src _ _ _ (bak_ne_bak lg.base_path 2 3 (by decide))]
  exact elim_none_some _

theorem rotate_bak3 (lg : Logger) (hf : lg.hasFile = true) (hm : lg.max_files = 4) :
    (lg.rotate_logs).fs (bak lg.base_path 3) = lg.fs (bak lg.base_path 2) := by
  rw [rotate_logs_eq lg hf hm]
  simp only [if_neg (bak_ne_self lg.base_path 3)]
  rw [renameFile_other _ _ _ _ (fun he => bak_ne_self lg.base_path 3 he)
    (by rw [← bak_one]; exact bak_ne_bak lg.base_path 3 1 (by decide))]
  rw [renameFile_other _ _ _ _ (bak_ne_bak lg.base_path 3 1 (by decide))
    (bak_ne_bak lg.base_path 3 2 (by decide))]
  rw [renameFile_dst]
  rw [removeFile_apply lg.fs (bak lg.base_path 3) (bak lg.base_path 2),
    if_neg (bak_ne_bak lg.base_path 2 3 (by decide)),
    removeFile_apply lg.fs (bak lg.base_path 3) (bak lg.base_path 3), if_pos rfl]
  exact elim_none_some _

theorem rotate_frame (lg : Logger) (hf : lg.hasFile = true) (hm : lg.max_files = 4)
    (n : String) (h0 : n ≠ lg.base_path) (h1 : n ≠ bak lg.base_path 1)
    (h2 : n ≠ bak lg.base_path 2) (h3 : n ≠ bak lg.base_path 3) :
    (lg.rotate_logs).fs n = lg.fs n := by
  rw [rotate_logs_eq lg hf hm]
  simp only [if_neg h0]
  rw [renameFile_other _ _ _ _ h0 (by rw [← bak_one]; exact h1)]
  rw [renameFile_other _ _ _ _ h1 h2]
  rw [renameFile_other _ _ _ _ h2 h3]
  rw [removeFile_apply, if_neg h3]

theorem rotateIter_preserves (lg : Logger) (m : Nat) :
    (lg.rotateIter m).hasFile = lg.hasFile
    ∧ (lg.rotateIter m).base_path = lg.base_path
    ∧ (lg.rotateIter m).max_files = lg.max_files := by
  induction m with
  | zero => exact ⟨rfl, rfl, rfl⟩
  | succ m ih =>
    have hp := rotate_preserves (lg.rotateIter m)
    exact ⟨hp.1.trans ih.1, hp.2.1.trans ih.2.1, hp.2.2.2.trans ih.2.2⟩

theorem rotateIter_none (lg : Logger) (hf : lg.hasFile = true) (hm : lg.max_files = 4)
    (hempty : ∀ n, n ≠ lg.base_path → n ≠ bak lg.base_path 1 → n ≠ bak lg.base_path 2 →
      n ≠ bak lg.base_path 3 → lg.fs n = none) :
    ∀ m n, n ≠ lg.base_path → n ≠ bak lg.base_path 1 → n ≠ bak lg.base_path 2 →
      n ≠ bak lg.base_path 3 → (lg.rotateIter m).fs n = none := by
  intro m
  induction m with
  | zero => exact hempty
  | succ m ih =>
    intro n h0 h1 h2 h3
    have hp := rotateIter_preserves lg m
    have hf' : (lg.rotateIter m).hasFile = true := hp.1.trans hf
    have hm' : (lg.rotateIter m).max_files = 4 := hp.2.2.trans hm
    have hb : (lg.rotateIter m).base_path = lg.base_path := hp.2.1
    show ((lg.rotateIter m).rotate_logs).fs n = none
    rw [rotate_frame (lg.rotateIter m) hf' hm' n (by rw [hb]; exact h0)
      (by rw [hb]; exact h1) (by rw [hb]; exact h2) (by rw [hb]; exact h3)]
    exact ih n h0 h1 h2 h3

/-- C6: one rotation (with the source's `max_files = 4`) performs, in the
embedded order, delete `.3`, shift `.2` to `.3` and `.1` to `.2`, rename
the active file to `.1`, and open a fresh active file: afterwards the
active file is empty, `.1` holds the old active file, `.2` the old `.1`,
`.3` the old `.2`, and no other path is touched; consequently, starting
from a state with no stray files, any number of rotations leaves at most
the three backups `.1`, `.2`, `.3` besides the active file. -/
theorem rotate_logs_shifts_and_bounds_backups (lg : Logger)
    (hf : lg.hasFile = true) (hm : lg.max_files = 4) :
    (lg.rotate_logs).fs lg.base_path = some []
    ∧ (lg.rotate_logs).fs (bak lg.base_path 1) = lg.fs lg.base_path
    ∧ (lg.rotate_logs).fs (bak lg.base_path 2) = lg.fs (bak lg.base_path 1)
    ∧ (lg.rotate_logs).fs (bak lg.base_path 3) = lg.fs (bak lg.base_path 2)
    ∧ (∀ n, n ≠ lg.base_path → n ≠ bak lg.base_path 1 → n ≠ bak lg.base_path 2 →
        n ≠ bak lg.base_path 3 → (lg.rotate_logs).fs n = lg.fs n)
    ∧ ((∀ n, n ≠ lg.base_path → n ≠ bak lg.base_path 1 → n ≠ bak lg.base_path 2 →
          n ≠ bak lg.base_path 3 → lg.fs n = none) →
        ∀ m n, n ≠ lg.base_path → n ≠ bak lg.base_path 1 → n ≠ bak lg.base_path 2 →
          n ≠ bak lg.base_path 3 → (lg.rotateIter m).fs n = none) :=
  ⟨rotate_base lg hf hm, rotate_bak1 lg hf hm, rotate_bak2 lg hf hm, rotate_bak3 lg hf hm,
    rotate_frame lg hf hm, rotateIter_none lg hf hm⟩

/-- A concrete logger state used to witness C6. -/
def lgC6 : Logger :=
  { hasFile := true
    base_path := "app.log"
    fs := fun n => if n = "app.log" then some ["x"] else none
    current_lines := 7
    max_lines := 20000
    max_files := 4 }

/-- C6 witness: rotating the concrete logger empties the active file, moves
its old content to `.1`, and iterated rotation creates no stray file. -/
theorem rotate_logs_shifts_and_bounds_backups_witness :
    (lgC6.rotate_logs).fs lgC6.base_path = some []
    ∧ (lgC6.rotate_logs).fs (bak lgC6.base_path 1) = lgC6.fs lgC6.base_path
    ∧ (lgC6.rotateIter 2).fs "stray.log" = none := by
  have h := rotate_logs_shifts_and_bounds_backups lgC6 rfl rfl
  refine ⟨h.1, h.2.1, ?_⟩
  refine h.2.2.2.2.2 ?_ 2 "stray.log" (by decide) (by decide) (by decide) (by decide)
  intro n h0 _ _ _
  exact if_neg h0

theorem log_eq_rotate (lg : Logger) (msg : String) (hf : lg.hasFile = true)
    (hc : lg.max_lines ≤ lg.current_lines) :
    lg.log msg = { lg.rotate_logs with
      fs := fun n => if n = (lg.rotate_logs).base_path then
          some ((((lg.rotate_logs).fs (lg.rotate_logs).base_path).getD []) ++ [msg])
        else (lg.rotate_logs).fs n
      current_lines := (lg.rotate_logs).current_lines + 1 } := by
  unfold Logger.log
  rw [hf]
  rw [if_pos rfl, if_pos hc]

theorem log_eq_plain (lg : Logger) (msg : String) (hf : lg.hasFile = true)
    (hc : ¬ lg.max_lines ≤ lg.current_lines) :
    lg.log msg = { lg with
      fs := fun n => if n = lg.base_path then
          some (((lg.fs lg.base_path).getD []) ++ [msg])
        else lg.fs n
      current_lines := lg.current_lines + 1 } := by
  unfold Logger.log
  rw [hf]
  rw [if_pos rfl, if_neg hc]
  simp only [hf]

/-- C5: with a file sink (and the source's `max_lines = 20000`,
`max_files = 4`), a call to `log` whose line counter has reached 20000
performs exactly one rotation before writing: the counter is reset to 0 and
ends at 1 after the new write, the fresh active file holds just the new
line, and the previously active file is now at suffix `.1`; a call whose
counter is below 20000 rotates nothing: it only appends to the active file
and increments the counter. -/
theorem logger_rotation_at_max_lines (lg : Logger) (msg : String)
    (hf : lg.hasFile = true) (hml : lg.max_lines = 20000) (hmf : lg.max_files = 4) :
    (20000 ≤ lg.current_lines →
      (lg.log msg).current_lines = 1
      ∧ (lg.log msg).fs lg.base_path = some [msg]
      ∧ (lg.log msg).fs (bak lg.base_path 1) = lg.fs lg.base_path
      ∧ (lg.log msg).fs (bak lg.base_path 2) = lg.fs (bak lg.base_path 1)
      ∧ (lg.log msg).fs (bak lg.base_path 3) = lg.fs (bak lg.base_path 2))
    ∧ (lg.current_lines < 20000 →
      (lg.log msg).current_lines = lg.current_lines + 1
      ∧ (lg.log msg).fs lg.base_path = some (((lg.fs lg.base_path).getD []) ++ [msg])
      ∧ ∀ n, n ≠ lg.base_path → (lg.log msg).fs n = lg.fs n) := by
  have hp := rotate_preserves lg
  constructor
  · intro hc
    have hc' : lg.max_lines ≤ lg.current_lines := by omega
    rw [log_eq_rotate lg msg hf hc']
    refine ⟨?_, ?_, ?_, ?_, ?_⟩
    · show (lg.rotate_logs).current_lines + 1 = 1
      rw [rotate_lines lg hf hmf]
    · show (if lg.base_path = (lg.rotate_logs).base_path then _ else _) = _
      rw [hp.2.1, if_pos rfl, rotate_base lg hf hmf]
      rfl
    · show (if bak lg.base_path 1 = (lg.rotate_logs).base_path then _ else _) = _
      rw [hp.2.1, if_neg (bak_ne_self lg.base_path 1), rotate_bak1 lg hf hmf]
    · show (if bak lg.base_path 2 = (lg.rotate_logs).base_path then _ else _) = _
      rw [hp.2.1, if_neg (bak_ne_self lg.base_path 2), rotate_bak2 lg hf hmf]
    · show (if bak lg.base_path 3 = (lg.rotate_logs).base_path then _ else _) = _
      rw [hp.2.1, if_neg (bak_ne_self lg.base_path 3), rotate_bak3 lg hf hmf]
  · intro hc
    have hc' : ¬ lg.max_lines ≤ lg.current_lines := by omega
    rw [log_eq_plain lg msg hf hc']
    refine ⟨rfl, ?_, ?_⟩
    · show (if lg.base_path = lg.base_path then _ else _) = _
      rw [if_pos rfl]
    · intro n hn
      show (if n = lg.base_path then _ else _) = _
      rw [if_neg hn]

/-- A concrete logger whose counter has reached the rotation threshold. -/
def lgC5a : Logger :=
  { hasFile := true
    base_path := "app.log"
    fs := fun n => if n = "app.log" then some ["old"] else none
    current_lines := 20000
    max_lines := 20000
    max_files := 4 }

/-- A concrete logger whose counter is below the rotation threshold. -/
def lgC5b : Logger :=
  { hasFile := true
    base_path := "app.log"
    fs := fun n => if n = "app.log" then some ["old"] else none
    current_lines := 5
    max_lines := 20000
    max_files := 4 }

/-- C5 witness: at counter 20000 one `log` call rotates (counter ends at 1,
the old active file is at `.1`, the fresh file holds the new line); at
counter 5 it just appends. -/
theorem logger_rotation_at_max_lines_witness :
    ((lgC5a.log "m").current_lines = 1
      ∧ (lgC5a.log "m").fs lgC5a.base_path = some ["m"]
      ∧ (lgC5a.log "m").fs (bak lgC5a.base_path 1) = lgC5a.fs lgC5a.base_path)
    ∧ ((lgC5b.log "m").current_lines = lgC5b.current_lines + 1
      ∧ ∀ n, n ≠ lgC5b.base_path → (lgC5b.log "m").fs n = lgC5b.fs n) := by
  have ha := (logger_rotation_at_max_lines lgC5a "m" rfl rfl rfl).1 (by decide)
  have hb := (logger_rotation_at_max_lines lgC5b "m" rfl rfl rfl).2 (by decide)
  exact ⟨⟨ha.1, ha.2.1, ha.2.2.1⟩, hb.1, hb.2.2⟩

/-- C8: an empty `sites` list makes `main` print the operator-facing
message `No sites configured!` and return the success exit result, spawning
zero monitor tasks (hence performing zero checks). -/
theorem empty_sites_exit_ok (cfg : Config) (h : cfg.sites = []) :
    mainStartup cfg = .exitOk "No sites configured!" ∧ spawnedTasks cfg = [] := by
  have he : cfg.sites.isEmpty = true := by rw [h]; rfl
  constructor
  · unfold mainStartup
    rw [if_pos he]
  · unfold spawnedTasks mainStartup
    rw [if_pos he]

/-- C8 witness: the empty configuration. -/
theorem empty_sites_exit_ok_witness :
    mainStartup { sites := [] } = .exitOk "No sites configured!"
    ∧ spawnedTasks { sites := [] } = [] :=
  empty_sites_exit_ok { sites := [] } rfl

end RLCheck
